import Mathlib

/-!
Verification development for the mcp-graphql-srv repository.

The definitions below are a shallow embedding of the second (current)
revision of server.ts found in the repository sources: the API-key
middleware, the query-graphql and search-schema tool handlers, and the
session/transport multiplexer for the Streamable HTTP endpoint (/mcp),
the legacy SSE endpoint (/sse) and its side-channel (/messages).
External library calls (JSON.parse, the graphql parser, fetch,
JSON.stringify) are modelled as oracle parameters; the handler control
flow, branch conditions, status codes and message texts are translated
from the source. The retrieval pipeline (rag.ts) is not present in the
sources, so its concurrency limiter and per-chunk failure handling are
modelled from the specification where noted.
-/

namespace Spec2Proof

/-- JavaScript truthiness of an optional string value: `undefined` and the
empty string are falsy, every other string is truthy. Used for
`!env.MCP_API_KEY`, `!providedKey` and `sessionId && ...` checks. -/
def strTruthy : Option String → Bool
  | none => false
  | some s => !s.isEmpty

/-! ## JSON values (results of JSON.parse) -/

/-- Minimal JSON value model, the codomain of the JSON.parse oracle. -/
inductive Json where
  | null
  | bool (b : Bool)
  | num (n : Int)
  | str (s : String)
  | arr (elems : List Json)
  | obj (fields : List (String × Json))

/-- Property access `value[key]` on a parsed JSON value: defined only on
objects, `none` elsewhere (undefined in JavaScript). -/
def Json.getField : Json → String → Option Json
  | .obj fields, key => fields.lookup key
  | _, _ => none

/-- JavaScript truthiness of a JSON value. -/
def Json.jsTruthy : Json → Bool
  | .null => false
  | .bool b => b
  | .num n => n != 0
  | .str s => !s.isEmpty
  | .arr _ => true
  | .obj _ => true

/-- The check `data.errors && data.errors.length > 0` from the
query-graphql handler (server.ts). Arrays and strings carry a length in
JavaScript; for other values `.length` is undefined and the comparison is
false. -/
def Json.hasGraphqlErrors (data : Json) : Bool :=
  match data.getField "errors" with
  | some e =>
      e.jsTruthy &&
        (match e with
         | .arr xs => decide (xs.length > 0)
         | .str s => decide (s.length > 0)
         | _ => false)
  | none => false

/-! ## GraphQL documents (results of parse from graphql/language) -/

/-- The operation kind of an OperationDefinition node. -/
inductive OperationType where
  | query
  | mutation
  | subscription
deriving Repr, DecidableEq

/-- A definition node of a parsed GraphQL document, keeping exactly what
the handler inspects: the node kind and, for operation definitions, the
operation field. -/
inductive Definition where
  | operationDefinition (operation : OperationType)
  | fragmentDefinition
  | otherDefinition
deriving Repr, DecidableEq

/-- A parsed GraphQL document: its list of definitions. -/
structure Document where
  definitions : List Definition
deriving Repr, DecidableEq

/-- The predicate applied to each definition in the handler:
`def.kind === "OperationDefinition" && def.operation === "mutation"`. -/
def Definition.isMutationDef : Definition → Bool
  | .operationDefinition .mutation => true
  | _ => false

/-- The mutation classification from the query-graphql handler:
`parsedQuery.definitions.some(def => def.kind === "OperationDefinition"
&& def.operation === "mutation")`. -/
def Document.isMutation (d : Document) : Bool :=
  d.definitions.any Definition.isMutationDef

/-! ## The query-graphql tool handler -/

/-- The shape of a settled fetch Response as the handler reads it:
`response.ok`, `response.status`, `response.statusText`, and the body text
from `response.text()`. -/
structure FetchResponse where
  ok : Bool
  status : Nat
  statusText : String
  body : String
deriving Repr, DecidableEq

/-- Outcome of the `fetch(env.ENDPOINT, ...)` call: either a settled
response or a rejection (network failure) caught by the outer try. -/
inductive FetchOutcome where
  | success (r : FetchResponse)
  | networkError (message : String)
deriving Repr, DecidableEq

/-- Oracles for the external functions the handler calls: JSON.parse,
the graphql parser, fetch, and JSON.stringify (with null, 2). -/
structure Oracles where
  jsonParse : String → Except String Json
  gqlParse : String → Except String Document
  fetch : FetchOutcome
  stringify : Json → String

/-- A structured tool result: the error flag (absent is modelled as
false) and the text content of the single content item. -/
structure ToolResult where
  isError : Bool := false
  text : String
deriving Repr, DecidableEq

/-- The execution part of the query-graphql handler (the final try block
of server.ts): fetch, read the body, branch on `response.ok`, parse the
body as JSON, branch on the GraphQL-level errors array, else succeed.
The 200-character body hint mirrors `responseText.substring(0, 200)`. -/
def executeQuery (o : Oracles) : ToolResult :=
  match o.fetch with
  | .networkError msg =>
      { isError := true, text := "Failed to execute GraphQL query: " ++ msg }
  | .success r =>
      if !r.ok then
        { isError := true,
          text := "GraphQL request failed: " ++ toString r.status ++ " "
            ++ r.statusText ++ "\n" ++ r.body }
      else
        match o.jsonParse r.body with
        | .error msg =>
            { isError := true,
              text := "Failed to parse GraphQL JSON response: " ++ msg
                ++ "\nResponse Body Hint:\n" ++ r.body.take 200 ++ "..." }
        | .ok data =>
            if data.hasGraphqlErrors then
              { isError := false,
                text := "GraphQL query executed, but the response contains errors: "
                  ++ o.stringify data }
            else
              { isError := false, text := o.stringify data }

/-- The validation part of the query-graphql handler after the variables
have been dealt with: parse the query, reject a mutation when
ALLOW_MUTATIONS is off, otherwise execute. The second component records
whether the fetch to the upstream endpoint was made. -/
def queryGraphqlChecked (allowMutations : Bool) (o : Oracles)
    (query : String) : ToolResult × Bool :=
  match o.gqlParse query with
  | .error msg =>
      ({ isError := true, text := "Invalid GraphQL query: " ++ msg }, false)
  | .ok doc =>
      if doc.isMutation && !allowMutations then
        ({ isError := true,
           text := "Mutations are not allowed. Set ALLOW_MUTATIONS=true to enable them." },
         false)
      else
        (executeQuery o, true)

/-- The whole query-graphql tool handler: parse the optional variables
JSON first, then validate and execute. Returns the tool result and
whether a request was sent to the upstream endpoint. -/
def queryGraphql (allowMutations : Bool) (o : Oracles)
    (query : String) (vars : Option String) : ToolResult × Bool :=
  match vars with
  | some v =>
      match o.jsonParse v with
      | .error msg =>
          ({ isError := true,
             text := "Invalid variables: Must be a valid JSON string. Error: " ++ msg },
           false)
      | .ok _ => queryGraphqlChecked allowMutations o query
  | none => queryGraphqlChecked allowMutations o query

/-- The optional variables argument is absent or parses as JSON. -/
def varsOk (jsonParse : String → Except String Json) : Option String → Bool
  | none => true
  | some v =>
      match jsonParse v with
      | .ok _ => true
      | .error _ => false

/-- Whether the first character list is a prefix of the second. -/
def listIsPrefixAux : List Char → List Char → Bool
  | [], _ => true
  | _ :: _, [] => false
  | a :: as, b :: bs => a == b && listIsPrefixAux as bs

/-- Whether the first character list occurs inside the second. -/
def listContainsAux (needle : List Char) : List Char → Bool
  | [] => listIsPrefixAux needle []
  | b :: bs => listIsPrefixAux needle (b :: bs) || listContainsAux needle bs

/-- Substring containment test, used to state that a message contains a
given label. -/
def containsSubstr (needle haystack : String) : Bool :=
  listContainsAux needle.toList haystack.toList

/-! ## The search-schema tool handler -/

/-- The search-schema handler on the hits the retrieval pipeline
returned: zero hits yield the explicit nothing-found text without the
error flag, otherwise the hit texts are joined in order. -/
def searchSchema (hits : List String) : ToolResult :=
  if hits.length == 0 then
    { isError := false,
      text := "No relevant schema information found for your question." }
  else
    { isError := false, text := String.intercalate "\n\n---\n\n" hits }

/-! ## The API-key authentication middleware and its wiring -/

/-- Result of the authenticateApiKey middleware: pass the request on
(next), reject 401 Unauthorized, or reject 403 Forbidden. -/
inductive AuthResult where
  | passed
  | unauthorized
  | forbidden
deriving Repr, DecidableEq

/-- The authenticateApiKey middleware from server.ts: skip when
MCP_API_KEY is not configured, 401 when the X-API-Key header is missing,
403 when its value differs from the configured key. -/
def authenticateApiKey (configuredKey providedKey : Option String) : AuthResult :=
  if !strTruthy configuredKey then .passed
  else if !strTruthy providedKey then .unauthorized
  else if providedKey != configuredKey then .forbidden
  else .passed

/-- The three MCP-facing routes of the express app. -/
inductive Endpoint where
  | mcp
  | sse
  | messages
deriving Repr, DecidableEq

/-- Which routes the middleware is mounted on: the source registers
authenticateApiKey with app.use on the /mcp and /messages paths only;
no middleware is registered on /sse. -/
def authMiddlewareApplied : Endpoint → Bool
  | .mcp => true
  | .messages => true
  | .sse => false

/-- The authentication outcome for an incoming request on a route:
the middleware runs where it is mounted, everything else passes. -/
def routeAuth (configuredKey : Option String) (e : Endpoint)
    (providedKey : Option String) : AuthResult :=
  if authMiddlewareApplied e then authenticateApiKey configuredKey providedKey
  else .passed

/-! ## The session/transport multiplexer -/

/-- The fixed idle window: 1000 * 60 * 60 milliseconds (1 hour). -/
def idleTimeoutMs : Nat := 1000 * 60 * 60

/-- A registered Streamable HTTP session: the transport/server pair it
resolves to (an opaque handle) and the absolute time at which the idle
timer set in onsessioninitialized will fire. -/
structure StreamEntry where
  transport : Nat
  idleDeadline : Nat
deriving Repr, DecidableEq

/-- The two module-level registries of server.ts plus an allocator for
fresh transport/server handles. -/
structure MuxState where
  streamableTransports : List (String × StreamEntry)
  sseTransports : List (String × Nat)
  nextHandle : Nat
deriving Repr, DecidableEq

/-- Outcome of a request on the /mcp route: handled by a transport
(recording whether a new McpServer was built for it), or the 400
jsonrpc -32000 invalid-handshake rejection. -/
inductive McpOutcome where
  | handled (transport : Nat) (builtNewServer : Bool)
  | badRequest
deriving Repr, DecidableEq

/-- The first branch condition of the /mcp handler,
`sessionId && streamableTransports[sessionId]`: the registered entry the
header resolves to, if any. -/
def lookupStreamable (st : MuxState) (sessionIdHeader : Option String) :
    Option StreamEntry :=
  if strTruthy sessionIdHeader then
    st.streamableTransports.lookup (sessionIdHeader.getD "")
  else none

/-- The app.all /mcp handler. A request with a registered session id
reuses the existing transport/server pair. A request with a falsy
session id and an initialization body builds a new server and a new
transport; onsessioninitialized (which fires while the transport handles
the initialize request) registers the minted id and arms the fixed
1-hour idle timer, recorded here as the absolute deadline now +
idleTimeoutMs. Every other request is rejected with the 400 handshake
error. -/
def handleMcp (st : MuxState) (now : Nat) (sessionIdHeader : Option String)
    (isInit : Bool) (freshId : String) : McpOutcome × MuxState :=
  match lookupStreamable st sessionIdHeader with
  | some entry => (.handled entry.transport false, st)
  | none =>
      if !strTruthy sessionIdHeader && isInit then
        (.handled st.nextHandle true,
         { st with
             streamableTransports :=
               (freshId, ⟨st.nextHandle, now + idleTimeoutMs⟩) :: st.streamableTransports,
             nextHandle := st.nextHandle + 1 })
      else
        (.badRequest, st)

/-- Deletion of a key from a registry, the effect of the JavaScript
delete operator on the record. -/
def removeKey {α : Type} (id : String) : List (String × α) → List (String × α)
  | [] => []
  | (k, v) :: rest =>
      if k = id then removeKey id rest else (k, v) :: removeKey id rest

/-- The idle-timer callback armed in onsessioninitialized: delete the
registry slot for the session id, then attempt transport.close() inside
a try whose catch ignores any error (a double close in particular). The
close attempt is modelled by its result argument, which the callback
discards, and the returned flag records that a close was attempted. -/
def fireIdleTimeout (st : MuxState) (id : String)
    (_closeResult : Except String Unit) : MuxState × Bool :=
  ({ st with streamableTransports := removeKey id st.streamableTransports }, true)

/-- The app.get /sse handler: a new SSEServerTransport is created with a
fresh session id and registered immediately; a new server is built and
connected. No idle timer is armed for SSE sessions. -/
def handleSse (st : MuxState) (freshId : String) : Nat × MuxState :=
  (st.nextHandle,
   { st with
       sseTransports := (freshId, st.nextHandle) :: st.sseTransports,
       nextHandle := st.nextHandle + 1 })

/-- Outcome of a request on the /messages side-channel: delivered to the
transport registered under the sessionId query parameter, or the 400
unknown-or-expired-session rejection. -/
inductive MessagesOutcome where
  | delivered (transport : Nat)
  | unknownSession
deriving Repr, DecidableEq

/-- The app.post /messages handler: look the sessionId query parameter
up in the SSE registry; reject with 400 when it is absent. -/
def handleMessages (st : MuxState) (sessionId : String) :
    MessagesOutcome × MuxState :=
  match st.sseTransports.lookup sessionId with
  | some t => (.delivered t, st)
  | none => (.unknownSession, st)

/-- The search-schema handler threaded through the server state: the
handler body reads none of the registries and writes none of them. -/
def searchSchemaStep (st : MuxState) (hits : List String) :
    ToolResult × MuxState :=
  (searchSchema hits, st)

/-! ## The reindex embedding fan-out (modelled from the spec) -/

/-- Modelled from the spec: the bounded-concurrency limiter of the
reindex embedding fan-out (rag.ts, which is not present under src/).
A state counts the queued and the in-flight embedding calls. -/
structure LimiterState where
  pending : Nat
  active : Nat
deriving Repr, DecidableEq

/-- Modelled from the spec: a queued call may start only while fewer
than limit calls are in flight; an in-flight call may finish at any
time. -/
inductive LimiterStep (limit : Nat) : LimiterState → LimiterState → Prop where
  | start (p a : Nat) : a < limit → LimiterStep limit ⟨p + 1, a⟩ ⟨p, a + 1⟩
  | finish (p a : Nat) : LimiterStep limit ⟨p, a + 1⟩ ⟨p, a⟩

/-- States reachable from an initial limiter state by limiter steps. -/
inductive LimiterReachable (limit : Nat) (init : LimiterState) :
    LimiterState → Prop where
  | refl : LimiterReachable limit init init
  | step {s t : LimiterState} : LimiterReachable limit init s →
      LimiterStep limit s t → LimiterReachable limit init t

/-- Modelled from the spec: the per-chunk embedding of a reindex batch
(rag.ts, not present under src/). Each chunk is embedded independently;
a chunk whose embedding call fails is dropped from the result set and
the remaining chunks are kept. -/
def embedChunks {α : Type} (embed : String → Except String α)
    (chunks : List String) : List (String × α) :=
  chunks.filterMap fun c =>
    match embed c with
    | .ok v => some (c, v)
    | .error _ => none

/-! ## Helper lemmas -/

/-- When the optional variables argument is absent or parses, the handler
reduces to its validation-and-execution part. -/
theorem queryGraphql_of_varsOk (allow : Bool) (o : Oracles) (q : String)
    (vars : Option String) (hv : varsOk o.jsonParse vars = true) :
    queryGraphql allow o q vars = queryGraphqlChecked allow o q := by
  cases vars with
  | none => rfl
  | some s =>
      unfold varsOk at hv
      cases h : o.jsonParse s with
      | ok j => simp [queryGraphql, h]
      | error m => simp [h] at hv

/-- Looking a key up after deleting it yields nothing. -/
theorem lookup_removeKey {α : Type} (id : String) (l : List (String × α)) :
    (removeKey id l).lookup id = none := by
  induction l with
  | nil => rfl
  | cons hd tl ih =>
      obtain ⟨k, v⟩ := hd
      by_cases h : k = id
      · simpa [removeKey, h] using ih
      · have hbk : (id == k) = false := beq_eq_false_iff_ne.mpr (Ne.symm h)
        simp [removeKey, h, List.lookup, ih, hbk]

/-- The validation predicate of a definition holds exactly on mutation
operation definitions. -/
theorem isMutationDef_iff (df : Definition) :
    df.isMutationDef = true ↔
      df = Definition.operationDefinition OperationType.mutation := by
  cases df with
  | operationDefinition op => cases op <;> simp [Definition.isMutationDef]
  | fragmentDefinition => simp [Definition.isMutationDef]
  | otherDefinition => simp [Definition.isMutationDef]

/-- The limiter invariant: from any initial state with nothing in
flight, the number of in-flight calls never exceeds the limit. -/
theorem limiter_active_le (limit n : Nat) (s : LimiterState)
    (h : LimiterReachable limit ⟨n, 0⟩ s) : s.active ≤ limit := by
  induction h with
  | refl => exact Nat.zero_le _
  | step _ hs ih =>
      cases hs with
      | start p a hlt => exact hlt
      | finish p a => exact Nat.le_trans (Nat.le_succ a) ih

/-! ## Claim C1: API-key access control -/

/-- C1 (counterexample): with an API key configured, a request to the
/sse stream-open endpoint carrying no X-API-Key header passes instead of
being rejected as unauthorized — the middleware is mounted on /mcp and
/messages only, so the claim fails on the /sse endpoint. -/
theorem C1_counterexample :
    routeAuth (some "secret") Endpoint.sse none = AuthResult.passed ∧
    AuthResult.passed ≠ AuthResult.unauthorized := by
  exact ⟨rfl, by decide⟩

/-- C1 (amended): when an API key is configured, every request on the
/mcp and /messages routes is checked — no X-API-Key header is rejected
as unauthorized (401), a wrong value as forbidden (403), the configured
value passes — and when no key is configured the check is disabled on
every route; the /sse stream-open route is not covered by the middleware
and always passes. -/
theorem C1_apiKeyGate (key hdr : Option String) (e : Endpoint) :
    (strTruthy key = false → routeAuth key e hdr = AuthResult.passed) ∧
    (strTruthy key = true → e ≠ Endpoint.sse →
      ((strTruthy hdr = false → routeAuth key e hdr = AuthResult.unauthorized) ∧
       (strTruthy hdr = true → hdr ≠ key → routeAuth key e hdr = AuthResult.forbidden) ∧
       (hdr = key → routeAuth key e hdr = AuthResult.passed))) ∧
    routeAuth key Endpoint.sse hdr = AuthResult.passed := by
  refine ⟨fun hk => ?_, fun hk hsse => ⟨fun hh => ?_, fun hh hne => ?_, fun heq => ?_⟩, rfl⟩
  · cases e <;> simp [routeAuth, authMiddlewareApplied, authenticateApiKey, hk]
  · cases e with
    | sse => exact absurd rfl hsse
    | mcp => simp [routeAuth, authMiddlewareApplied, authenticateApiKey, hk, hh]
    | messages => simp [routeAuth, authMiddlewareApplied, authenticateApiKey, hk, hh]
  · have hb : (hdr != key) = true := by simp [bne_iff_ne, hne]
    cases e with
    | sse => exact absurd rfl hsse
    | mcp => simp [routeAuth, authMiddlewareApplied, authenticateApiKey, hk, hh, hb]
    | messages => simp [routeAuth, authMiddlewareApplied, authenticateApiKey, hk, hh, hb]
  · subst heq
    cases e with
    | sse => exact absurd rfl hsse
    | mcp => simp [routeAuth, authMiddlewareApplied, authenticateApiKey, hk]
    | messages => simp [routeAuth, authMiddlewareApplied, authenticateApiKey, hk]

/-! ## Claim C2: the mutation gate -/

/-- C2: for every call whose query parses to a document containing a
mutation operation (and whose optional variables argument, when present,
parses as JSON), the handler with ALLOW_MUTATIONS off returns an error
result whose message contains "not allowed" and sends nothing to the
upstream endpoint; the same call with the flag on proceeds to execution
against the upstream endpoint. -/
theorem C2_mutationGate (o : Oracles) (query : String) (vars : Option String)
    (doc : Document)
    (hp : o.gqlParse query = Except.ok doc)
    (hm : doc.isMutation = true)
    (hv : varsOk o.jsonParse vars = true) :
    (queryGraphql false o query vars).1.isError = true ∧
    containsSubstr "not allowed" (queryGraphql false o query vars).1.text = true ∧
    (queryGraphql false o query vars).2 = false ∧
    (queryGraphql true o query vars).2 = true := by
  rw [queryGraphql_of_varsOk false o query vars hv,
    queryGraphql_of_varsOk true o query vars hv]
  unfold queryGraphqlChecked
  rw [hp]
  simp [hm]
  decide

/-- Concrete oracles for the C2 witness: the parser yields a one-element
document holding a mutation operation. -/
def oracleMut : Oracles where
  jsonParse := fun _ => Except.ok Json.null
  gqlParse := fun _ =>
    Except.ok ⟨[Definition.operationDefinition OperationType.mutation]⟩
  fetch := .success ⟨true, 200, "OK", "body"⟩
  stringify := fun _ => "rendered"

/-- C2 witness: the gate at a concrete mutation call. -/
theorem C2_mutationGate_witness :
    (queryGraphql false oracleMut "mutation m" none).1.isError = true ∧
    containsSubstr "not allowed" (queryGraphql false oracleMut "mutation m" none).1.text = true ∧
    (queryGraphql false oracleMut "mutation m" none).2 = false ∧
    (queryGraphql true oracleMut "mutation m" none).2 = true :=
  C2_mutationGate oracleMut "mutation m" none
    ⟨[Definition.operationDefinition OperationType.mutation]⟩ rfl rfl rfl

/-! ## Claim C3: handshake and side-channel rejections -/

/-- C3: a stream-style request that does not resolve to a registered
session and is not an identifier-free initialization request is rejected
with the 400 protocol-level handshake error, creating no session and
leaving the registries and the handle allocator unchanged; and a
/messages request whose session id is unknown or already removed is
rejected with the 400 client error, state unchanged. -/
theorem C3_rejections (st : MuxState) (now : Nat) (hdr : Option String)
    (isInit : Bool) (freshId : String)
    (h1 : lookupStreamable st hdr = none)
    (h2 : (!strTruthy hdr && isInit) = false) :
    handleMcp st now hdr isInit freshId = (McpOutcome.badRequest, st) ∧
    (∀ (st2 : MuxState) (sid : String), st2.sseTransports.lookup sid = none →
      handleMessages st2 sid = (MessagesOutcome.unknownSession, st2)) := by
  constructor
  · simp [handleMcp, h1, h2]
  · intro st2 sid hl
    simp [handleMessages, hl]

/-- An empty multiplexer state: no sessions, first handle 0. -/
def muxEmpty : MuxState := ⟨[], [], 0⟩

/-- C3 witness: a truthy unknown session id with an initialization body
is rejected on /mcp, and an unknown id is rejected on /messages. -/
theorem C3_rejections_witness :
    handleMcp muxEmpty 5 (some "zzz") true "fresh" = (McpOutcome.badRequest, muxEmpty) ∧
    handleMessages muxEmpty "gone" = (MessagesOutcome.unknownSession, muxEmpty) :=
  ⟨(C3_rejections muxEmpty 5 (some "zzz") true "fresh" rfl rfl).1,
   (C3_rejections muxEmpty 5 (some "zzz") true "fresh" rfl rfl).2 muxEmpty "gone" rfl⟩

/-! ## Claim C4: one live transport/server pair per session id -/

/-- C4: a stream-style request carrying a known registered id is routed
to the existing transport/server pair with no new server construction
and no state change, and a handled request that did build a new server
can only arise from the initialization branch: a falsy session id with
an initialization body, the fresh pair being the next handle, registered
under the minted id (which then resolves to exactly that pair). -/
theorem C4_sessionRouting (st : MuxState) (now : Nat) (hdr : Option String)
    (isInit : Bool) (freshId : String) :
    (∀ entry : StreamEntry, lookupStreamable st hdr = some entry →
      handleMcp st now hdr isInit freshId =
        (McpOutcome.handled entry.transport false, st)) ∧
    (∀ (t : Nat) (st2 : MuxState),
      handleMcp st now hdr isInit freshId = (McpOutcome.handled t true, st2) →
      lookupStreamable st hdr = none ∧ (!strTruthy hdr && isInit) = true ∧
      t = st.nextHandle ∧
      st2.streamableTransports =
        (freshId, ⟨t, now + idleTimeoutMs⟩) :: st.streamableTransports ∧
      st2.streamableTransports.lookup freshId = some ⟨t, now + idleTimeoutMs⟩) := by
  constructor
  · intro entry he
    simp [handleMcp, he]
  · intro t st2 hrun
    cases hl : lookupStreamable st hdr with
    | some entry => simp [handleMcp, hl] at hrun
    | none =>
        cases hc : (!strTruthy hdr && isInit) with
        | false => simp [handleMcp, hl, hc] at hrun
        | true =>
            simp [handleMcp, hl, hc] at hrun
            obtain ⟨ht, hst⟩ := hrun
            subst ht
            refine ⟨rfl, rfl, rfl, ?_, ?_⟩
            · rw [← hst]
            · rw [← hst]
              simp [List.lookup]

/-! ## Claim C5: idle eviction -/

/-- The state after one initialization request at time 0 minting the
session id s1: the entry carries the fixed deadline 0 + 1 hour. -/
def muxAfterInit : MuxState := (handleMcp muxEmpty 0 none true "s1").2

/-- C5 (counterexample): traffic does not reset the idle window. After
initialization at time 0 the deadline of session s1 is 3600000; a
reuse request (traffic) at time 1000000 leaves the state, deadline
included, unchanged — were the window reset, the deadline would be
1000000 + idleTimeoutMs — and the timer callback then still evicts the
session. -/
theorem C5_counterexample :
    muxAfterInit.streamableTransports.lookup "s1" =
      some ⟨0, 3600000⟩ ∧
    (handleMcp muxAfterInit 1000000 (some "s1") false "f").2 = muxAfterInit ∧
    1000000 + idleTimeoutMs ≠ 3600000 ∧
    ((fireIdleTimeout (handleMcp muxAfterInit 1000000 (some "s1") false "f").2
        "s1" (Except.ok ())).1).streamableTransports.lookup "s1" = none := by
  refine ⟨by decide, by decide, by decide, by decide⟩

/-- C5 (amended): a Streamable HTTP session is given a fixed one-hour
deadline armed once when the session is initialized; traffic on a
registered session leaves the state, deadlines included, unchanged (the
window is not reset); when the timer fires the registry slot is released
and a transport close is attempted, any close error (a double close in
particular) being ignored; a legacy SSE session is registered with no
idle timer and its removal is tied to the connection close event only. -/
theorem C5_idleEviction (st : MuxState) (now : Nat) (hdr : Option String)
    (isInit : Bool) (freshId id : String) (c c2 : Except String Unit) :
    (strTruthy hdr = false → isInit = true →
      (handleMcp st now hdr isInit freshId).2.streamableTransports.lookup freshId
        = some ⟨st.nextHandle, now + idleTimeoutMs⟩) ∧
    (∀ entry, lookupStreamable st hdr = some entry →
      (handleMcp st now hdr isInit freshId).2 = st) ∧
    ((fireIdleTimeout st id c).1.streamableTransports.lookup id = none ∧
     (fireIdleTimeout st id c).2 = true ∧
     fireIdleTimeout st id c = fireIdleTimeout st id c2) ∧
    (handleSse st freshId).2.sseTransports =
      (freshId, st.nextHandle) :: st.sseTransports := by
  refine ⟨fun hh hi => ?_, fun entry he => ?_, ⟨?_, rfl, rfl⟩, rfl⟩
  · have hl : lookupStreamable st hdr = none := by simp [lookupStreamable, hh]
    subst hi
    simp [handleMcp, hl, hh, List.lookup]
  · simp [handleMcp, he]
  · exact lookup_removeKey id st.streamableTransports

/-! ## Claim C6: syntactically invalid queries -/

/-- C6: for every syntactically invalid GraphQL query string (with the
optional variables argument absent or parsing as JSON), the handler
returns an error result whose message is labeled as an invalid query,
and no network call is made to the upstream endpoint. -/
theorem C6_invalidQuery (o : Oracles) (allow : Bool) (query : String)
    (vars : Option String) (msg : String)
    (hp : o.gqlParse query = Except.error msg)
    (hv : varsOk o.jsonParse vars = true) :
    (queryGraphql allow o query vars).1.isError = true ∧
    (queryGraphql allow o query vars).1.text = "Invalid GraphQL query: " ++ msg ∧
    (queryGraphql allow o query vars).2 = false := by
  rw [queryGraphql_of_varsOk allow o query vars hv]
  simp [queryGraphqlChecked, hp]

/-- Concrete oracles for the C6 witness: the parser rejects every
query. -/
def oracleBadQuery : Oracles where
  jsonParse := fun _ => Except.ok Json.null
  gqlParse := fun _ => Except.error "Syntax Error"
  fetch := .success ⟨true, 200, "OK", "body"⟩
  stringify := fun _ => "rendered"

/-- C6 witness: the invalid-query outcome at a concrete call. -/
theorem C6_invalidQuery_witness :
    (queryGraphql false oracleBadQuery "nonsense" none).1.isError = true ∧
    (queryGraphql false oracleBadQuery "nonsense" none).1.text =
      "Invalid GraphQL query: " ++ "Syntax Error" ∧
    (queryGraphql false oracleBadQuery "nonsense" none).2 = false :=
  C6_invalidQuery oracleBadQuery false "nonsense" none "Syntax Error" rfl rfl

/-! ## Claim C7: search-schema on the retrieval hits -/

/-- C7: for every hits list returned by the retrieval pipeline, the
search-schema handler returns a non-error result — the explicit
nothing-found text when the list is empty, otherwise the hit texts
joined in their given order by the fixed delimiter — and leaves the
server state unchanged. -/
theorem C7_searchSchema (st : MuxState) (hits : List String) :
    (searchSchemaStep st hits).2 = st ∧
    (searchSchemaStep st hits).1.isError = false ∧
    (hits = [] → (searchSchemaStep st hits).1.text =
      "No relevant schema information found for your question.") ∧
    (∀ h t, hits = h :: t → (searchSchemaStep st hits).1.text =
      String.intercalate "\n\n---\n\n" (h :: t)) := by
  refine ⟨rfl, ?_, ?_, ?_⟩
  · cases hits <;> simp [searchSchemaStep, searchSchema]
  · intro he; subst he; rfl
  · intro h t he; subst he; simp [searchSchemaStep, searchSchema]

/-! ## Claim C8: the failure taxonomy of query-graphql -/

/-- Concrete oracles for the C8 counterexample: the upstream responds
200 with a JSON body holding a non-empty errors array. -/
def oracleUpstreamErrors : Oracles where
  jsonParse := fun _ => Except.ok (Json.obj [("errors", Json.arr [Json.str "boom"])])
  gqlParse := fun _ => Except.ok ⟨[Definition.operationDefinition OperationType.query]⟩
  fetch := .success ⟨true, 200, "OK", "body"⟩
  stringify := fun _ => "rendered"

/-- C8 (counterexample): when the upstream reply carries a GraphQL-level
errors array, the handler returns the labeled explanation without the
error flag — the source deliberately leaves isError commented out on
that branch — so this failure mode does not come back with the error
flag set as the claim states. -/
theorem C8_counterexample :
    (queryGraphql true oracleUpstreamErrors "q" none).1.isError = false ∧
    containsSubstr "contains errors"
      (queryGraphql true oracleUpstreamErrors "q" none).1.text = true := by
  refine ⟨by decide, by decide⟩

/-- The distinct message labels of the query-graphql failure modes, in
source order. -/
def qgLabels : List String :=
  ["Invalid variables: ",
   "Invalid GraphQL query: ",
   "Mutations are not allowed",
   "Failed to execute GraphQL query: ",
   "GraphQL request failed: ",
   "Failed to parse GraphQL JSON response: ",
   "GraphQL query executed, but the response contains errors: "]

/-- C8 (amended): every failure mode of query-graphql comes back as a
structured tool result rather than an exception: invalid variables JSON,
invalid query syntax, a disallowed mutation, an upstream HTTP failure, a
non-JSON upstream body and a network failure all carry the error flag;
an upstream GraphQL-level errors array is reported with its label but
without the error flag (the source comments the flag out on that
branch). The three pre-send rejections send nothing upstream, the
upstream-response and network outcomes follow a fetch, and the message
labels of the modes are pairwise distinct, none being a prefix of
another. -/
theorem C8_failureModes (o : Oracles) (query : String) :
    (∀ (allow : Bool) (v msg : String), o.jsonParse v = Except.error msg →
      queryGraphql allow o query (some v) =
        ({ isError := true,
           text := "Invalid variables: Must be a valid JSON string. Error: " ++ msg },
         false)) ∧
    (∀ (allow : Bool) (vars : Option String) (msg : String),
      varsOk o.jsonParse vars = true → o.gqlParse query = Except.error msg →
      queryGraphql allow o query vars =
        ({ isError := true, text := "Invalid GraphQL query: " ++ msg }, false)) ∧
    (∀ (vars : Option String) (doc : Document),
      varsOk o.jsonParse vars = true → o.gqlParse query = Except.ok doc →
      doc.isMutation = true →
      queryGraphql false o query vars =
        ({ isError := true,
           text := "Mutations are not allowed. Set ALLOW_MUTATIONS=true to enable them." },
         false)) ∧
    (∀ (allow : Bool) (vars : Option String) (doc : Document),
      varsOk o.jsonParse vars = true → o.gqlParse query = Except.ok doc →
      (doc.isMutation && !allow) = false →
      queryGraphql allow o query vars = (executeQuery o, true)) ∧
    (∀ msg : String, o.fetch = FetchOutcome.networkError msg →
      executeQuery o =
        { isError := true, text := "Failed to execute GraphQL query: " ++ msg }) ∧
    (∀ r : FetchResponse, o.fetch = FetchOutcome.success r → r.ok = false →
      executeQuery o =
        { isError := true,
          text := "GraphQL request failed: " ++ toString r.status ++ " "
            ++ r.statusText ++ "\n" ++ r.body }) ∧
    (∀ (r : FetchResponse) (msg : String), o.fetch = FetchOutcome.success r →
      r.ok = true → o.jsonParse r.body = Except.error msg →
      executeQuery o =
        { isError := true,
          text := "Failed to parse GraphQL JSON response: " ++ msg
            ++ "\nResponse Body Hint:\n" ++ r.body.take 200 ++ "..." }) ∧
    (∀ (r : FetchResponse) (data : Json), o.fetch = FetchOutcome.success r →
      r.ok = true → o.jsonParse r.body = Except.ok data →
      data.hasGraphqlErrors = true →
      executeQuery o =
        { isError := false,
          text := "GraphQL query executed, but the response contains errors: "
            ++ o.stringify data }) ∧
    List.Pairwise
      (fun a b => listIsPrefixAux a.toList b.toList = false ∧
        listIsPrefixAux b.toList a.toList = false) qgLabels := by
  refine ⟨?_, ?_, ?_, ?_, ?_, ?_, ?_, ?_, by decide⟩
  · intro allow v msg hj
    simp [queryGraphql, hj]
  · intro allow vars msg hv hp
    rw [queryGraphql_of_varsOk allow o query vars hv]
    simp [queryGraphqlChecked, hp]
  · intro vars doc hv hp hm
    rw [queryGraphql_of_varsOk false o query vars hv]
    simp [queryGraphqlChecked, hp, hm]
  · intro allow vars doc hv hp hgate
    rw [queryGraphql_of_varsOk allow o query vars hv]
    simp [queryGraphqlChecked, hp, hgate]
  · intro msg hf
    simp [executeQuery, hf]
  · intro r hf hok
    simp [executeQuery, hf, hok]
  · intro r msg hf hok hj
    simp [executeQuery, hf, hok, hj]
  · intro r data hf hok hj he
    simp [executeQuery, hf, hok, hj, he]

/-! ## Claim C9: bounded embedding concurrency and failure isolation -/

/-- C9 (spec-modelled, rag.ts absent from src/): in the reindex
embedding fan-out the number of in-flight embedding calls never exceeds
the fixed cap of 3, whatever the batch size; and chunk failures are
isolated — every chunk whose embedding call succeeds is kept in the
result set while a chunk whose call fails is dropped from it, never
aborting the batch. -/
theorem C9_embeddingConcurrency :
    (∀ (n : Nat) (s : LimiterState), LimiterReachable 3 ⟨n, 0⟩ s → s.active ≤ 3) ∧
    (∀ (α : Type) (embed : String → Except String α) (chunks : List String)
      (c : String) (v : α), c ∈ chunks → embed c = Except.ok v →
        (c, v) ∈ embedChunks embed chunks) ∧
    (∀ (α : Type) (embed : String → Except String α) (chunks : List String)
      (c msg : String) (v : α), embed c = Except.error msg →
        (c, v) ∉ embedChunks embed chunks) := by
  refine ⟨fun n s h => limiter_active_le 3 n s h, ?_, ?_⟩
  · intro α embed chunks c v hc hok
    unfold embedChunks
    exact List.mem_filterMap.mpr ⟨c, hc, by rw [hok]⟩
  · intro α embed chunks c msg v herr hmem
    unfold embedChunks at hmem
    obtain ⟨a, _, hfa⟩ := List.mem_filterMap.mp hmem
    cases h2 : embed a with
    | ok w =>
        rw [h2] at hfa
        simp only [Option.some.injEq, Prod.mk.injEq] at hfa
        obtain ⟨hac, hwv⟩ := hfa
        subst hac
        rw [h2] at herr
        exact Except.noConfusion herr
    | error m =>
        rw [h2] at hfa
        exact Option.noConfusion hfa

/-! ## Claim C10: the mutation classification -/

/-- C10: the handler classifies a document as a mutation exactly when at
least one of its definitions is an operation definition whose operation
is mutation; in particular a document whose operations are only queries
or subscriptions passes the gate with mutations disabled and is
forwarded to the upstream endpoint. -/
theorem C10_mutationClassification :
    (∀ d : Document, d.isMutation = true ↔
      ∃ df ∈ d.definitions,
        df = Definition.operationDefinition OperationType.mutation) ∧
    (∀ (o : Oracles) (query : String) (vars : Option String) (doc : Document),
      varsOk o.jsonParse vars = true → o.gqlParse query = Except.ok doc →
      doc.isMutation = false →
      queryGraphql false o query vars = (executeQuery o, true)) := by
  constructor
  · intro d
    unfold Document.isMutation
    rw [List.any_eq_true]
    constructor
    · rintro ⟨df, hdf, hp⟩
      exact ⟨df, hdf, (isMutationDef_iff df).mp hp⟩
    · rintro ⟨df, hdf, hp⟩
      exact ⟨df, hdf, (isMutationDef_iff df).mpr hp⟩
  · intro o query vars doc hv hp hm
    rw [queryGraphql_of_varsOk false o query vars hv]
    simp [queryGraphqlChecked, hp, hm]

end Spec2Proof
